import Mathlib

/-!
Shallow embedding of the job-orchestration engine in `src/api-client.ts`
of the runhuman QA-test action: job statuses, the deadline calculator
`calculateMaxWaitMs`, the retry wrapper `withRetry`, the failure
classification of `createJob` / `getJobStatus`, and the poll loop
`waitForCompletion`.  All times are milliseconds as integers; timestamps
(`responseDeadline`, `Date.now()`) are parsed epoch milliseconds.
-/

set_option maxRecDepth 4000

namespace RunHuman

/-- The status enumerants of a job (`JobStatus` in `types.ts`). -/
inductive JobStatus where
  | pending
  | waiting
  | working
  | completed
  | incomplete
  | abandoned
  | rejected
  | error
  deriving DecidableEq, Repr

/-- `TERMINAL_STATES` (api-client.ts line 25). -/
def TERMINAL_STATES : List JobStatus :=
  [.completed, .error, .abandoned, .incomplete, .rejected]

/-- `POLL_INTERVAL_MS` (line 28): 5 seconds between polls. -/
def POLL_INTERVAL_MS : Int := 5000

/-- `DEFAULT_MAX_WAIT_MS` (line 29): 10 minutes default. -/
def DEFAULT_MAX_WAIT_MS : Int := 600000

/-- `BUFFER_MS` (line 30): 5 minutes buffer. -/
def BUFFER_MS : Int := 5 * 60 * 1000

/-- `calculateMaxWaitMs` (lines 35-57).  `responseDeadline` is modelled as
the parsed epoch-millisecond value of the deadline string (`none` when the
field is absent or empty, i.e. falsy); `nowMs` is `Date.now()` at the call.
`totalExtensionMinutes || 0` is the JS truthiness fallback, `Option.getD`. -/
def calculateMaxWaitMs (targetDurationMinutes totalExtensionMinutes : Option Int)
    (responseDeadline : Option Int) (nowMs : Int) : Int :=
  match responseDeadline with
  | some deadlineMs => max ((deadlineMs - nowMs) + BUFFER_MS) DEFAULT_MAX_WAIT_MS
  | none =>
    match targetDurationMinutes with
    | some t => (t + totalExtensionMinutes.getD 0) * 60 * 1000 + BUFFER_MS
    | none => DEFAULT_MAX_WAIT_MS

/-- Reference deadline calculator, written from the words of the spec:
deadline branch is `max((deadline - now) + 5 minutes, 10 minutes)`; target
branch is `(t + e_or_0) * 60 seconds + 300 seconds`; otherwise 10 minutes. -/
def maxWaitSpecRef (t e d : Option Int) (now : Int) : Int :=
  match d with
  | some dv => max ((dv - now) + 5 * 60 * 1000) (10 * 60 * 1000)
  | none =>
    match t with
    | some tv => (tv + e.getD 0) * (60 * 1000) + 300 * 1000
    | none => 10 * 60 * 1000

end RunHuman

namespace RunHuman

/-- C2.  The deadline calculator agrees with the spec's reference definition
on every input (targets in `[1,60]`, extensions nonnegative when present),
and in the deadline branch the result never drops below the 10-minute
default, even for deadlines in the past. -/
theorem calculateMaxWaitMs_eq_spec (t e d : Option Int) (now : Int)
    (ht : ∀ tv, t = some tv → 1 ≤ tv ∧ tv ≤ 60)
    (he : ∀ ev, e = some ev → 0 ≤ ev) :
    calculateMaxWaitMs t e d now = maxWaitSpecRef t e d now ∧
    (∀ dv, d = some dv → DEFAULT_MAX_WAIT_MS ≤ calculateMaxWaitMs t e d now) := by
  constructor
  · cases d <;> cases t <;> cases e <;>
      simp [calculateMaxWaitMs, maxWaitSpecRef, BUFFER_MS, DEFAULT_MAX_WAIT_MS] <;>
      ring_nf
  · intro dv hd
    subst hd
    simp [calculateMaxWaitMs]

/-- Witness for C2 at a concrete input: a 5-minute target with a 3-minute
extension and a deadline already in the past. -/
theorem calculateMaxWaitMs_eq_spec_witness :
    calculateMaxWaitMs (some 5) (some 3) (some 1000) 2000 =
      maxWaitSpecRef (some 5) (some 3) (some 1000) 2000 ∧
    (∀ dv, (some 1000 : Option Int) = some dv →
      DEFAULT_MAX_WAIT_MS ≤ calculateMaxWaitMs (some 5) (some 3) (some 1000) 2000) :=
  calculateMaxWaitMs_eq_spec (some 5) (some 3) (some 1000) 2000
    (fun tv htv => by cases htv; exact ⟨by norm_num, by norm_num⟩)
    (fun ev hev => by cases hev; norm_num)

/-- The fields of a `JobStatusResponse` that `waitForCompletion` reads: one
status fetch result.  `responseDeadline` is the parsed epoch-millisecond
deadline, `none` when absent. -/
structure Snapshot where
  status : JobStatus
  targetDurationMinutes : Option Int
  totalExtensionMinutes : Option Int
  responseDeadline : Option Int
  deriving DecidableEq, Repr

/-- `WaitResult` (lines 217-220). -/
structure WaitResult where
  job : Snapshot
  timedOut : Bool
  deriving DecidableEq, Repr

/-- The ceiling update of lines 248-251: `maxWaitMs` is replaced only when
the newly computed value is strictly larger, otherwise kept. -/
def ceilingUpdate (maxWaitMs newMaxWaitMs : Int) : Int :=
  if newMaxWaitMs > maxWaitMs then newMaxWaitMs else maxWaitMs

/-- The ceiling recomputed from a snapshot (lines 243-247).  Fetches are
modelled as instantaneous, so `Date.now()` at the recomputation equals the
start time plus the elapsed time; measuring times from start = 0, the
`nowMs` argument of `calculateMaxWaitMs` is just `elapsed`. -/
def recomputedCeil (s : Snapshot) (elapsed : Int) : Int :=
  calculateMaxWaitMs s.targetDurationMinutes s.totalExtensionMinutes
    s.responseDeadline elapsed

/-- The `while (true)` loop of `waitForCompletion` (lines 238-271), run over
the stream of snapshots that successive fetches return.  Per iteration, in
source order: the ceiling is updated first, then the terminal-state check,
then the timeout check against the updated ceiling, then the 5-second sleep
(which is what advances `elapsed`, fetches being instantaneous).  The result
carries the number of fetches performed; `none` means the finite stream was
exhausted with the loop still running. -/
def pollGo : List Snapshot → Int → Int → Option (WaitResult × Nat)
  | [], _, _ => none
  | s :: rest, elapsed, maxWaitMs =>
    if s.status ∈ TERMINAL_STATES then some (⟨s, false⟩, 1)
    else if elapsed > ceilingUpdate maxWaitMs (recomputedCeil s elapsed) then
      some (⟨s, true⟩, 1)
    else
      (pollGo rest (elapsed + POLL_INTERVAL_MS)
          (ceilingUpdate maxWaitMs (recomputedCeil s elapsed))).map
        (fun r => (r.1, r.2 + 1))

/-- Initial `maxWaitMs` of `waitForCompletion` (lines 234-236).  The source
tests `initialTargetMinutes ?` by JS truthiness, so an explicit 0 also falls
through to the default. -/
def initialMaxWait (initialTargetMinutes : Option Int) : Int :=
  match initialTargetMinutes with
  | some t => if t = 0 then DEFAULT_MAX_WAIT_MS else t * 60 * 1000 + BUFFER_MS
  | none => DEFAULT_MAX_WAIT_MS

/-- `waitForCompletion` (lines 225-272) over a snapshot stream: starts at
elapsed 0 with the initial ceiling. -/
def waitForCompletion (snaps : List Snapshot) (initialTargetMinutes : Option Int) :
    Option (WaitResult × Nat) :=
  pollGo snaps 0 (initialMaxWait initialTargetMinutes)

/-- C1.  A fetched terminal snapshot ends the loop at that fetch: the result
is that snapshot with `timedOut = false` and exactly one fetch from that
point, for every elapsed time and ceiling — in particular also when elapsed
already exceeds the ceiling, since the terminal check precedes the timeout
check — and independently of the rest of the stream.  Moreover, in any
completed run every fetched snapshot except the last is non-terminal, so no
snapshot after a terminal one is ever observed. -/
theorem waitForCompletion_terminal_stops :
    (∀ (s : Snapshot) (rest : List Snapshot) (elapsed maxWaitMs : Int),
        s.status ∈ TERMINAL_STATES →
        pollGo (s :: rest) elapsed maxWaitMs = some (⟨s, false⟩, 1)) ∧
    (∀ (snaps : List Snapshot) (elapsed maxWaitMs : Int) (r : WaitResult) (n : Nat),
        pollGo snaps elapsed maxWaitMs = some (r, n) →
        ∀ i, i + 1 < n →
          ∃ s, snaps.get? i = some s ∧ s.status ∉ TERMINAL_STATES) := by
  constructor
  · intro s rest elapsed maxWaitMs hterm
    simp [pollGo, hterm]
  · intro snaps
    induction snaps with
    | nil => intro elapsed maxWaitMs r n h; simp [pollGo] at h
    | cons s rest ih =>
      intro elapsed maxWaitMs r n h i hi
      by_cases hterm : s.status ∈ TERMINAL_STATES
      · simp [pollGo, hterm] at h
        omega
      · by_cases htime : elapsed > ceilingUpdate maxWaitMs (recomputedCeil s elapsed)
        · simp [pollGo, hterm, htime] at h
          omega
        · simp only [pollGo, if_neg hterm, if_neg htime, Option.map_eq_some'] at h
          obtain ⟨⟨r', n'⟩, hp, heq⟩ := h
          injection heq with hr hn
          cases i with
          | zero => exact ⟨s, rfl, hterm⟩
          | succ j =>
            have := ih (elapsed + POLL_INTERVAL_MS)
              (ceilingUpdate maxWaitMs (recomputedCeil s elapsed)) r' n' hp j (by omega)
            simpa using this

/-- Witness for C1: an `abandoned` snapshot fetched when elapsed already far
exceeds the ceiling is still returned with `timedOut = false` in one fetch,
and a finished 2-fetch run has a non-terminal first snapshot. -/
theorem waitForCompletion_terminal_stops_witness :
    pollGo [⟨.abandoned, none, none, none⟩, ⟨.pending, none, none, none⟩]
        999999999 0 = some (⟨⟨.abandoned, none, none, none⟩, false⟩, 1) ∧
    (∃ s, ([⟨.pending, none, none, none⟩, ⟨.abandoned, none, none, none⟩] :
        List Snapshot).get? 0 = some s ∧ s.status ∉ TERMINAL_STATES) :=
  ⟨waitForCompletion_terminal_stops.1 ⟨.abandoned, none, none, none⟩
      [⟨.pending, none, none, none⟩] 999999999 0 (by decide),
   waitForCompletion_terminal_stops.2
      [⟨.pending, none, none, none⟩, ⟨.abandoned, none, none, none⟩] 0 600000
      ⟨⟨.abandoned, none, none, none⟩, false⟩ 2 (by decide) 0 (by decide)⟩

/-- C10.  Every result of the poll loop satisfies: `timedOut = false` iff the
returned snapshot's status is terminal; a timed-out result always carries a
non-terminal snapshot and a non-timed-out one always carries a terminal
snapshot. -/
theorem waitForCompletion_timedOut_iff (snaps : List Snapshot)
    (elapsed maxWaitMs : Int) (r : WaitResult) (n : Nat)
    (h : pollGo snaps elapsed maxWaitMs = some (r, n)) :
    r.timedOut = false ↔ r.job.status ∈ TERMINAL_STATES := by
  induction snaps generalizing elapsed maxWaitMs r n with
  | nil => simp [pollGo] at h
  | cons s rest ih =>
    by_cases hterm : s.status ∈ TERMINAL_STATES
    · simp [pollGo, hterm] at h
      obtain ⟨hr, -⟩ := h
      subst hr
      simpa using hterm
    · by_cases htime : elapsed > ceilingUpdate maxWaitMs (recomputedCeil s elapsed)
      · simp [pollGo, hterm, htime] at h
        obtain ⟨hr, -⟩ := h
        subst hr
        simpa using hterm
      · simp only [pollGo, if_neg hterm, if_neg htime, Option.map_eq_some'] at h
        obtain ⟨⟨r', n'⟩, hp, heq⟩ := h
        injection heq with hr hn
        subst hr
        exact ih (elapsed + POLL_INTERVAL_MS)
          (ceilingUpdate maxWaitMs (recomputedCeil s elapsed)) r' n' hp

/-- Witness for C10 on a one-snapshot terminal run. -/
theorem waitForCompletion_timedOut_iff_witness :
    ((⟨⟨.completed, none, none, none⟩, false⟩ : WaitResult).timedOut = false ↔
      (⟨⟨.completed, none, none, none⟩, false⟩ : WaitResult).job.status ∈
        TERMINAL_STATES) :=
  waitForCompletion_timedOut_iff [⟨.completed, none, none, none⟩] 0 600000
    ⟨⟨.completed, none, none, none⟩, false⟩ 1 (by decide)

/-- The sequence of ceilings in use after each successive snapshot of the
stream, mirroring the ceiling threading of `pollGo` (the update of lines
248-251 applied at elapsed times 0, 5000, 10000, …). -/
def ceilSeq : List Snapshot → Int → Int → List Int
  | [], _, _ => []
  | s :: rest, elapsed, maxWaitMs =>
    ceilingUpdate maxWaitMs (recomputedCeil s elapsed) ::
      ceilSeq rest (elapsed + POLL_INTERVAL_MS)
        (ceilingUpdate maxWaitMs (recomputedCeil s elapsed))

/-- The sequence `c1, c2, …` of ceilings recomputed from the successive
snapshots (line 243), before the keep-the-larger comparison. -/
def recompSeq : List Snapshot → Int → List Int
  | [], _ => []
  | s :: rest, elapsed =>
    recomputedCeil s elapsed :: recompSeq rest (elapsed + POLL_INTERVAL_MS)

/-- The conditional ceiling update is exactly binary max. -/
theorem ceilingUpdate_eq_max (m c : Int) : ceilingUpdate m c = max m c := by
  unfold ceilingUpdate
  rcases le_or_lt c m with h | h
  · rw [if_neg (by omega), max_eq_left h]
  · rw [if_pos h, max_eq_right h.le]

/-- C3.  The ceiling is monotonically non-decreasing within one poll
session: after the (i+1)-th snapshot the ceiling in use is the max of the
initial ceiling and all recomputed ceilings so far; a recomputation not
larger than the current ceiling is ignored; and the poll loop threads
exactly this updated ceiling into both the timeout check and the next
iteration. -/
theorem pollCeiling_monotone :
    (∀ (snaps : List Snapshot) (elapsed m0 : Int) (i : Nat), i < snaps.length →
        (ceilSeq snaps elapsed m0).get? i =
          some (((recompSeq snaps elapsed).take (i + 1)).foldl max m0)) ∧
    (∀ m c : Int, c ≤ m → ceilingUpdate m c = m) ∧
    (∀ (s : Snapshot) (rest : List Snapshot) (elapsed m : Int),
        s.status ∉ TERMINAL_STATES →
        ¬elapsed > ceilingUpdate m (recomputedCeil s elapsed) →
        pollGo (s :: rest) elapsed m =
          (pollGo rest (elapsed + POLL_INTERVAL_MS)
              (ceilingUpdate m (recomputedCeil s elapsed))).map
            (fun r => (r.1, r.2 + 1))) := by
  refine ⟨?_, ?_, ?_⟩
  · intro snaps
    induction snaps with
    | nil => intro elapsed m0 i hi; simp at hi
    | cons s rest ih =>
      intro elapsed m0 i hi
      cases i with
      | zero =>
        simp [ceilSeq, recompSeq, ceilingUpdate_eq_max]
      | succ j =>
        have hj : j < rest.length := by simpa using hi
        have := ih (elapsed + POLL_INTERVAL_MS)
          (ceilingUpdate m0 (recomputedCeil s elapsed)) j hj
        simpa [ceilSeq, recompSeq, ceilingUpdate_eq_max] using this
  · intro m c h
    unfold ceilingUpdate
    rw [if_neg (by omega)]
  · intro s rest elapsed m hterm htime
    simp [pollGo, hterm, htime]

/-- Witness for C3 at a concrete stream: a second snapshot whose recomputed
ceiling (10 minutes, no job data) is smaller than the current one (65
minutes from a 60-minute target) is ignored. -/
theorem pollCeiling_monotone_witness :
    (ceilSeq [⟨.pending, some 60, none, none⟩, ⟨.pending, none, none, none⟩]
        0 600000).get? 1 =
      some (((recompSeq [⟨.pending, some 60, none, none⟩,
          ⟨.pending, none, none, none⟩] 0).take 2).foldl max 600000) ∧
    ceilingUpdate 3900000 600000 = 3900000 ∧
    pollGo [⟨.pending, some 60, none, none⟩] 0 600000 =
      (pollGo [] (0 + POLL_INTERVAL_MS)
          (ceilingUpdate 600000
            (recomputedCeil ⟨.pending, some 60, none, none⟩ 0))).map
        (fun r => (r.1, r.2 + 1)) :=
  ⟨pollCeiling_monotone.1
      [⟨.pending, some 60, none, none⟩, ⟨.pending, none, none, none⟩]
      0 600000 1 (by decide),
   pollCeiling_monotone.2.1 3900000 600000 (by decide),
   pollCeiling_monotone.2.2 ⟨.pending, some 60, none, none⟩ [] 0 600000
      (by decide) (by decide)⟩

/-- Helper for C4: a poll run over non-terminal snapshots whose recomputed
ceilings never exceed the current ceiling `m0` times out at the first
elapsed time strictly beyond `m0`, which overshoots `m0` by at most one
poll interval whenever the loop is entered with at most that overshoot. -/
theorem pollGo_timeout_of_nonterminal :
    ∀ (snaps : List Snapshot) (e m0 : Int),
      (∀ (i : Nat) (s : Snapshot), snaps.get? i = some s →
        s.status ∉ TERMINAL_STATES) →
      (∀ (i : Nat) (s : Snapshot), snaps.get? i = some s →
        recomputedCeil s (e + (i : Int) * POLL_INTERVAL_MS) ≤ m0) →
      e ≤ m0 + POLL_INTERVAL_MS →
      (∃ i : Nat, i < snaps.length ∧ m0 < e + (i : Int) * POLL_INTERVAL_MS) →
      ∃ (n : Nat) (s : Snapshot),
        pollGo snaps e m0 = some (⟨s, true⟩, n + 1) ∧ snaps.get? n = some s ∧
        m0 < e + (n : Int) * POLL_INTERVAL_MS ∧
        e + (n : Int) * POLL_INTERVAL_MS ≤ m0 + POLL_INTERVAL_MS := by
  intro snaps
  induction snaps with
  | nil =>
    intro e m0 _ _ _ hlong
    obtain ⟨i, hi, -⟩ := hlong
    simp at hi
  | cons s rest ih =>
    intro e m0 hnt hng hstart hlong
    have hsn : s.status ∉ TERMINAL_STATES := hnt 0 s rfl
    have hc : recomputedCeil s e ≤ m0 := by
      have := hng 0 s rfl
      simpa using this
    have hm : ceilingUpdate m0 (recomputedCeil s e) = m0 := by
      unfold ceilingUpdate
      rw [if_neg (by omega)]
    by_cases he : m0 < e
    · refine ⟨0, s, ?_, rfl, by simpa using he, by simpa using hstart⟩
      simp [pollGo, hsn, hm, he]
    · push_neg at he
      obtain ⟨n, s', h1, h2, h3, h4⟩ :=
        ih (e + POLL_INTERVAL_MS) m0
          (fun i s' h => hnt (i + 1) s' (by simpa using h))
          (fun i s' h => by
            have hrec := hng (i + 1) s' (by simpa using h)
            have harg : e + ((i : Int) + 1) * POLL_INTERVAL_MS =
                (e + POLL_INTERVAL_MS) + (i : Int) * POLL_INTERVAL_MS := by ring
            push_cast at hrec
            rw [harg] at hrec
            exact hrec)
          (by linarith)
          (by
            obtain ⟨i, hi, hg⟩ := hlong
            cases i with
            | zero =>
              exfalso
              simp at hg
              omega
            | succ j =>
              refine ⟨j, by simpa using hi, ?_⟩
              have harg : e + ((j : Int) + 1) * POLL_INTERVAL_MS =
                  (e + POLL_INTERVAL_MS) + (j : Int) * POLL_INTERVAL_MS := by ring
              push_cast at hg
              rw [harg] at hg
              exact hg)
      refine ⟨n + 1, s', ?_, by simpa using h2, ?_, ?_⟩
      · have hunf : pollGo (s :: rest) e m0 =
            (pollGo rest (e + POLL_INTERVAL_MS) m0).map
              (fun r => (r.1, r.2 + 1)) := by
          simp only [pollGo, hm, if_neg hsn, if_neg (by omega : ¬e > m0)]
        rw [hunf, h1]
        rfl
      · push_cast
        linarith
      · push_cast
        linarith

/-- C4.  On a snapshot stream with no terminal status and no ceiling growth
(every recomputed ceiling at most the initial one), `waitForCompletion`
stops gracefully with `timedOut = true`, returning the last fetched
snapshot, and the elapsed time at the stop exceeds the effective ceiling by
at most one poll interval (5 seconds), fetches being instantaneous. -/
theorem waitForCompletion_times_out (snaps : List Snapshot) (tgt : Option Int)
    (htgt : ∀ tv, tgt = some tv → 0 ≤ tv)
    (hnt : ∀ (i : Nat) (s : Snapshot), snaps.get? i = some s →
      s.status ∉ TERMINAL_STATES)
    (hng : ∀ (i : Nat) (s : Snapshot), snaps.get? i = some s →
      recomputedCeil s ((i : Int) * POLL_INTERVAL_MS) ≤ initialMaxWait tgt)
    (hlong : ∃ i : Nat, i < snaps.length ∧
      initialMaxWait tgt < (i : Int) * POLL_INTERVAL_MS) :
    ∃ (n : Nat) (s : Snapshot),
      waitForCompletion snaps tgt = some (⟨s, true⟩, n + 1) ∧
      snaps.get? n = some s ∧
      initialMaxWait tgt < (n : Int) * POLL_INTERVAL_MS ∧
      (n : Int) * POLL_INTERVAL_MS ≤ initialMaxWait tgt + POLL_INTERVAL_MS := by
  have hm0 : 0 ≤ initialMaxWait tgt := by
    unfold initialMaxWait
    cases tgt with
    | none => norm_num [DEFAULT_MAX_WAIT_MS]
    | some t =>
      have := htgt t rfl
      simp only [BUFFER_MS, DEFAULT_MAX_WAIT_MS]
      split <;> omega
  obtain ⟨n, s, h1, h2, h3, h4⟩ :=
    pollGo_timeout_of_nonterminal snaps 0 (initialMaxWait tgt) hnt
      (fun i s h => by simpa using hng i s h)
      (by have : (0 : Int) ≤ POLL_INTERVAL_MS := by norm_num [POLL_INTERVAL_MS]
          linarith)
      (by obtain ⟨i, hi, hg⟩ := hlong
          exact ⟨i, hi, by simpa using hg⟩)
  exact ⟨n, s, by simpa [waitForCompletion] using h1, h2,
    by simpa using h3, by simpa using h4⟩

/-- A pending snapshot with no scheduling fields. -/
def pendingSnap : Snapshot := ⟨.pending, none, none, none⟩

/-- Witness for C4: 122 consecutive `pending` snapshots against the default
10-minute ceiling; the loop times out. -/
theorem waitForCompletion_times_out_witness :
    ∃ (n : Nat) (s : Snapshot),
      waitForCompletion (List.replicate 122 pendingSnap) none =
        some (⟨s, true⟩, n + 1) ∧
      (List.replicate 122 pendingSnap).get? n = some s ∧
      initialMaxWait none < (n : Int) * POLL_INTERVAL_MS ∧
      (n : Int) * POLL_INTERVAL_MS ≤ initialMaxWait none + POLL_INTERVAL_MS :=
  waitForCompletion_times_out (List.replicate 122 pendingSnap) none
    (fun tv h => nomatch h)
    (fun i s h => by
      have heq := List.eq_of_mem_replicate (List.get?_mem h)
      subst heq
      decide)
    (fun i s h => by
      have heq := List.eq_of_mem_replicate (List.get?_mem h)
      subst heq
      norm_num [recomputedCeil, calculateMaxWaitMs, initialMaxWait, pendingSnap,
        DEFAULT_MAX_WAIT_MS])
    ⟨121, by simp, by norm_num [initialMaxWait, DEFAULT_MAX_WAIT_MS,
      POLL_INTERVAL_MS]⟩

/-- A thrown JS `Error`, identified by its message (the only field the
retry classifier inspects). -/
structure Err where
  message : String
  deriving DecidableEq, Repr

/-- Does the character list start with the given pattern? -/
def charsStartWith : List Char → List Char → Bool
  | [], _ => true
  | _ :: _, [] => false
  | p :: ps, c :: cs => p == c && charsStartWith ps cs

/-- Does the character list contain the given pattern as a contiguous run? -/
def charsContain : List Char → List Char → Bool
  | s, pat =>
    charsStartWith pat s ||
      match s with
      | [] => false
      | _ :: rest => charsContain rest pat

/-- JS `String.prototype.includes`: substring containment. -/
def stringIncludes (s pat : String) : Bool :=
  charsContain s.data pat.data

/-- The network-error classification of `withRetry` (lines 82-86):
substring-match the error message against the four transport patterns. -/
def isNetworkError (e : Err) : Bool :=
  stringIncludes e.message "ECONNRESET" ||
    stringIncludes e.message "ETIMEDOUT" ||
    stringIncludes e.message "socket hang up" ||
    stringIncludes e.message "fetch failed"

/-- The retry loop of `withRetry` (lines 77-98), with the operation modelled
as the outcome of each attempt (`fn attempt`).  `remaining` is
`maxRetries - attempt`, so `attempt === maxRetries` is `remaining = 0`.
Returns the final outcome, the number of invocations of the operation, and
the list of injected backoff delays (`baseDelayMs * 2 ^ attempt`, line 92). -/
def retryGo {A : Type} (fn : Nat → Except Err A) (baseDelayMs : Int) :
    Nat → Nat → Except Err A × Nat × List Int
  | attempt, remaining =>
    match fn attempt with
    | .ok a => (.ok a, 1, [])
    | .error e =>
      if isNetworkError e then
        match remaining with
        | 0 => (.error e, 1, [])
        | r + 1 =>
          ((retryGo fn baseDelayMs (attempt + 1) r).1,
           (retryGo fn baseDelayMs (attempt + 1) r).2.1 + 1,
           baseDelayMs * 2 ^ attempt :: (retryGo fn baseDelayMs (attempt + 1) r).2.2)
      else (.error e, 1, [])

/-- `withRetry` with its default arguments `maxRetries = 3`,
`baseDelayMs = 1000` (the only way the source ever calls it). -/
def withRetry {A : Type} (fn : Nat → Except Err A) :
    Except Err A × Nat × List Int :=
  retryGo fn 1000 0 3

/-- A successful attempt returns immediately. -/
theorem retryGo_of_ok {A : Type} (fn : Nat → Except Err A) (base : Int)
    (attempt remaining : Nat) (a : A) (h : fn attempt = .ok a) :
    retryGo fn base attempt remaining = (.ok a, 1, []) := by
  conv_lhs => rw [retryGo]
  rw [h]

/-- A non-network failure is re-thrown at once, whatever the remaining
attempt budget. -/
theorem retryGo_of_error_stop {A : Type} (fn : Nat → Except Err A) (base : Int)
    (attempt remaining : Nat) (e : Err) (h : fn attempt = .error e)
    (hn : isNetworkError e = false) :
    retryGo fn base attempt remaining = (.error e, 1, []) := by
  conv_lhs => rw [retryGo]
  rw [h]
  simp [hn]

/-- A network failure on the last allowed attempt is re-thrown. -/
theorem retryGo_of_error_exhausted {A : Type} (fn : Nat → Except Err A)
    (base : Int) (attempt : Nat) (e : Err) (h : fn attempt = .error e) :
    retryGo fn base attempt 0 = (.error e, 1, []) := by
  conv_lhs => rw [retryGo]
  rw [h]
  simp

/-- A network failure with attempts remaining injects the backoff delay and
retries. -/
theorem retryGo_of_error_retry {A : Type} (fn : Nat → Except Err A)
    (base : Int) (attempt remaining : Nat) (e : Err) (h : fn attempt = .error e)
    (hn : isNetworkError e = true) (hr : remaining ≠ 0) :
    retryGo fn base attempt remaining =
      ((retryGo fn base (attempt + 1) (remaining - 1)).1,
       (retryGo fn base (attempt + 1) (remaining - 1)).2.1 + 1,
       base * 2 ^ attempt :: (retryGo fn base (attempt + 1) (remaining - 1)).2.2) := by
  obtain ⟨r, rfl⟩ : ∃ r, remaining = r + 1 := ⟨remaining - 1, by omega⟩
  conv_lhs => rw [retryGo]
  rw [h]
  simp [hn]

/-- The exact message thrown by `createJob` on a 401 (lines 153-156). -/
def authErrorMessage : String :=
  "Authentication failed: Invalid API key. Make sure your RUNHUMAN_API_KEY secret is set correctly."

/-- C5.  Any failure the classifier does not recognise as network-class
propagates unchanged after the single failing invocation — one call, no
injected delay — from any point of the retry loop; and the concrete
authentication, not-found, request-failed and malformed-response messages
the transport throws are all non-network. -/
theorem withRetry_nonNetwork_propagates :
    (∀ (A : Type) (fn : Nat → Except Err A) (base : Int)
        (attempt remaining : Nat) (e : Err),
        fn attempt = .error e → isNetworkError e = false →
        retryGo fn base attempt remaining = (.error e, 1, [])) ∧
    isNetworkError ⟨authErrorMessage⟩ = false ∧
    isNetworkError ⟨"Job job_123 not found"⟩ = false ∧
    isNetworkError ⟨"Failed to create job (500): (empty response body)"⟩ = false ∧
    isNetworkError ⟨"API did not return a job ID"⟩ = false :=
  ⟨fun _ fn base attempt remaining e h hn =>
      retryGo_of_error_stop fn base attempt remaining e h hn,
   by decide, by decide, by decide, by decide⟩

/-- An operation that always fails with the malformed-response error. -/
def malformedFn : Nat → Except Err Unit :=
  fun _ => .error ⟨"API did not return a job ID"⟩

/-- Witness for C5: the malformed-response failure ends `withRetry` after
one invocation with no delays. -/
theorem withRetry_nonNetwork_propagates_witness :
    retryGo malformedFn 1000 0 3 =
      (.error ⟨"API did not return a job ID"⟩, 1, []) :=
  withRetry_nonNetwork_propagates.1 Unit malformedFn 1000 0 3
    ⟨"API did not return a job ID"⟩ rfl (by decide)

/-- Helper for C6: a run of `k` network failures followed by a success,
anywhere in the retry loop with at least `k` retries remaining. -/
theorem retryGo_transient_run {A : Type} (fn : Nat → Except Err A)
    (base : Int) (a : A) :
    ∀ (k attempt remaining : Nat), k ≤ remaining →
      (∀ i, i < k → ∃ e, fn (attempt + i) = .error e ∧ isNetworkError e = true) →
      fn (attempt + k) = .ok a →
      retryGo fn base attempt remaining =
        (.ok a, k + 1, (List.range k).map (fun i => base * 2 ^ (attempt + i))) := by
  intro k
  induction k with
  | zero =>
    intro attempt remaining _ _ hsucc
    simpa using retryGo_of_ok fn base attempt remaining a (by simpa using hsucc)
  | succ k ih =>
    intro attempt remaining hkr hfail hsucc
    obtain ⟨e0, h0, n0⟩ := hfail 0 (Nat.succ_pos k)
    rw [Nat.add_zero] at h0
    rw [retryGo_of_error_retry fn base attempt remaining e0 h0 n0 (by omega)]
    rw [ih (attempt + 1) (remaining - 1) (by omega)
      (fun i hi => by
        obtain ⟨e, he, hne⟩ := hfail (i + 1) (by omega)
        exact ⟨e, by rw [show attempt + 1 + i = attempt + (i + 1) by ring]; exact he,
          hne⟩)
      (by rw [show attempt + 1 + k = attempt + (k + 1) by ring]; exact hsucc)]
    refine Prod.ext rfl (Prod.ext rfl ?_)
    show base * 2 ^ attempt ::
        (List.range k).map (fun i => base * 2 ^ (attempt + 1 + i)) =
      (List.range (k + 1)).map (fun i => base * 2 ^ (attempt + i))
    rw [List.range_succ_eq_map, List.map_cons, List.map_map]
    refine congrArg₂ _ (by rw [Nat.add_zero]) ?_
    refine List.map_congr_left (fun i _ => ?_)
    simp only [Function.comp]
    rw [show attempt + 1 + i = attempt + (i + 1) from by omega]

/-- C6.  A transport failure on each of the first `k` attempts
(`1 ≤ k ≤ 3`) followed by success yields the successful result after
exactly `k + 1` invocations, with injected backoff delays
`1000 * 2 ^ i` milliseconds (1 s, 2 s, 4 s for `k = 3`). -/
theorem withRetry_transient_then_success {A : Type} (fn : Nat → Except Err A)
    (k : Nat) (a : A) (hk1 : 1 ≤ k) (hk3 : k ≤ 3)
    (hfail : ∀ i, i < k → ∃ e, fn i = .error e ∧ isNetworkError e = true)
    (hsucc : fn k = .ok a) :
    withRetry fn = (.ok a, k + 1,
      (List.range k).map (fun i => (1000 : Int) * 2 ^ i)) := by
  have := retryGo_transient_run fn 1000 a k 0 3 hk3
    (fun i hi => by simpa using hfail i hi) (by simpa using hsucc)
  simpa [withRetry] using this

/-- An operation with timeouts on the first three attempts, then success. -/
def transientFn : Nat → Except Err Nat :=
  fun i => if i < 3 then .error ⟨"ETIMEDOUT"⟩ else .ok 42

/-- Witness for C6 at `k = 3`: three timeouts then success gives the result
after 4 invocations with delays 1 s, 2 s, 4 s. -/
theorem withRetry_transient_then_success_witness :
    withRetry transientFn = (.ok 42, 3 + 1,
      (List.range 3).map (fun i => (1000 : Int) * 2 ^ i)) :=
  withRetry_transient_then_success transientFn 3 42 (by norm_num) (by norm_num)
    (fun i hi => ⟨⟨"ETIMEDOUT"⟩, by simp [transientFn, hi], by decide⟩)
    (by simp [transientFn])

/-- An operation failing with a distinct connection-reset error on every
attempt. -/
def flakyFn : Nat → Except Err Unit :=
  fun i => .error ⟨"ECONNRESET " ++ toString i⟩

/-- Counterexample to C7 as stated: when every attempt fails with a distinct
transport error, `withRetry` raises the attempt-4 error, not the first
attempt's error. -/
theorem withRetry_exhausted_first_error_cex :
    withRetry flakyFn = (.error ⟨"ECONNRESET 3"⟩, 4, [1000, 2000, 4000]) ∧
    flakyFn 0 = .error ⟨"ECONNRESET 0"⟩ ∧
    (⟨"ECONNRESET 3"⟩ : Err) ≠ ⟨"ECONNRESET 0"⟩ := by
  refine ⟨rfl, rfl, ?_⟩
  intro h
  exact absurd (congrArg Err.message h) (by decide)

/-- C7 (amended).  A transport failure on all 4 attempts makes `withRetry`
invoke the operation exactly 4 times, inject the three backoff delays, and
propagate the last attempt's error unchanged. -/
theorem withRetry_exhausted_last_error {A : Type} (fn : Nat → Except Err A)
    (e0 e1 e2 e3 : Err)
    (h0 : fn 0 = .error e0) (hn0 : isNetworkError e0 = true)
    (h1 : fn 1 = .error e1) (hn1 : isNetworkError e1 = true)
    (h2 : fn 2 = .error e2) (hn2 : isNetworkError e2 = true)
    (h3 : fn 3 = .error e3) (hn3 : isNetworkError e3 = true) :
    withRetry fn = (.error e3, 4, [1000, 2000, 4000]) := by
  unfold withRetry
  rw [retryGo_of_error_retry fn 1000 0 3 e0 h0 hn0 (by norm_num)]
  norm_num
  rw [retryGo_of_error_retry fn 1000 1 2 e1 h1 hn1 (by norm_num)]
  norm_num
  rw [retryGo_of_error_retry fn 1000 2 1 e2 h2 hn2 (by norm_num)]
  norm_num
  rw [retryGo_of_error_exhausted fn 1000 3 e3 h3]
  norm_num

/-- An operation failing with a distinct socket-hang-up error on every
attempt. -/
def hangupFn : Nat → Except Err Unit :=
  fun i => .error ⟨"socket hang up #" ++ toString i⟩

/-- Witness for the amended C7. -/
theorem withRetry_exhausted_last_error_witness :
    withRetry hangupFn = (.error ⟨"socket hang up #3"⟩, 4, [1000, 2000, 4000]) :=
  withRetry_exhausted_last_error hangupFn
    ⟨"socket hang up #0"⟩ ⟨"socket hang up #1"⟩
    ⟨"socket hang up #2"⟩ ⟨"socket hang up #3"⟩
    rfl (by decide) rfl (by decide) rfl (by decide) rfl (by decide)

/-- Outcome of `JSON.parse` on an error response body, when it succeeds:
the truthy `error` and `message` string fields (absent/falsy is `none`) and
the `JSON.stringify` rendering of the parsed value. -/
structure JsonErrorBody where
  errorField : Option String
  messageField : Option String
  stringified : String
  deriving DecidableEq, Repr

/-- An HTTP error response body: its raw text and, when `JSON.parse`
succeeds on it, the parsed value. -/
structure ResponseBody where
  text : String
  json : Option JsonErrorBody
  deriving DecidableEq, Repr

/-- The error-message extraction of `createJob` (lines 137-145):
`errorData.error || errorData.message || JSON.stringify(errorData)` on a
parseable body, otherwise `errorText || '(empty response body)'`. -/
def extractErrorMessage (b : ResponseBody) : String :=
  match b.json with
  | some j => j.errorField.getD (j.messageField.getD j.stringified)
  | none => if b.text = "" then "(empty response body)" else b.text

/-- The failure `createJob` throws on a non-success response (lines
136-159): a dedicated message for 401, otherwise the extracted message. -/
def createJobFailure (status : Nat) (b : ResponseBody) : Err :=
  if status = 401 then ⟨authErrorMessage⟩
  else ⟨"Failed to create job (" ++ toString status ++ "): " ++
    extractErrorMessage b⟩

/-- The failure `getJobStatus` throws on a non-success response (lines
196-209): not-found for 404, otherwise the raw body text with the HTTP
status text as fallback — no 401 case and no body parsing. -/
def getJobStatusFailure (jobId : String) (status : Nat) (statusText : String)
    (b : ResponseBody) : Err :=
  if status = 404 then ⟨"Job " ++ jobId ++ " not found"⟩
  else ⟨"Failed to get job status (" ++ toString status ++ "): " ++
    (if b.text = "" then statusText else b.text)⟩

/-- String append acts as append on the character data. -/
theorem dataAppend (s t : String) : (s ++ t).data = s.data ++ t.data := by
  cases s
  cases t
  rfl

/-- The status-fetch failure is never the authentication failure, whatever
the response: its message always starts with a different prefix. -/
theorem getJobStatusFailure_ne_auth (jobId statusText : String) (status : Nat)
    (b : ResponseBody) (h404 : status ≠ 404) :
    getJobStatusFailure jobId status statusText b ≠ ⟨authErrorMessage⟩ := by
  intro h
  have hm : ("Failed to get job status (" ++ toString status ++ "): " ++
      (if b.text = "" then statusText else b.text)) = authErrorMessage := by
    have := congrArg Err.message h
    simpa [getJobStatusFailure, if_neg h404] using this
  have hd := congrArg (fun s => s.data.head?) hm
  simp only [dataAppend] at hd
  rw [List.append_assoc, List.append_assoc] at hd
  have hA : authErrorMessage.data.head? = some 'A' := rfl
  rw [hA] at hd
  simp only [List.cons_append, List.head?_cons] at hd
  exact absurd hd (by decide)

/-- A 401 status-fetch response body as the server sends it. -/
def bodyAuthJson : ResponseBody :=
  ⟨"\x7b\"error\":\"Invalid API key\"\x7d",
   some ⟨some "Invalid API key", none, "\x7b\"error\":\"Invalid API key\"\x7d"⟩⟩

/-- Counterexample to C8 as stated: on a 401 status-fetch response the code
does not produce the authentication failure that submission produces, and on
an empty non-404 body it falls back to the HTTP status text, not to the
literal used by submission. -/
theorem getJobStatus_classification_cex :
    getJobStatusFailure "job_123" 401 "Unauthorized" bodyAuthJson =
      ⟨"Failed to get job status (401): \x7b\"error\":\"Invalid API key\"\x7d"⟩ ∧
    createJobFailure 401 bodyAuthJson = ⟨authErrorMessage⟩ ∧
    getJobStatusFailure "job_123" 401 "Unauthorized" bodyAuthJson ≠
      createJobFailure 401 bodyAuthJson ∧
    getJobStatusFailure "job_123" 500 "Internal Server Error" ⟨"", none⟩ =
      ⟨"Failed to get job status (500): Internal Server Error"⟩ ∧
    extractErrorMessage ⟨"", none⟩ = "(empty response body)" := by
  refine ⟨by decide, by decide, by decide, by decide, by decide⟩

/-- C8 (amended).  The status-fetch classifier: 404 yields the job-not-found
failure; any other non-success status — including 401 — yields a
request-failed message built from the raw body text, with the HTTP status
text as the empty-body fallback; the parsed body is never consulted and the
result is never the authentication failure. -/
theorem getJobStatus_classification (jobId statusText : String) (status : Nat)
    (b : ResponseBody) (h404 : status ≠ 404) :
    getJobStatusFailure jobId status statusText b =
      ⟨"Failed to get job status (" ++ toString status ++ "): " ++
        (if b.text = "" then statusText else b.text)⟩ ∧
    getJobStatusFailure jobId 404 statusText b =
      ⟨"Job " ++ jobId ++ " not found"⟩ ∧
    (∀ j : JsonErrorBody,
      getJobStatusFailure jobId status statusText ⟨b.text, some j⟩ =
        getJobStatusFailure jobId status statusText ⟨b.text, none⟩) ∧
    getJobStatusFailure jobId status statusText b ≠ ⟨authErrorMessage⟩ := by
  refine ⟨by simp [getJobStatusFailure, if_neg h404], by simp [getJobStatusFailure],
    fun j => by simp [getJobStatusFailure],
    getJobStatusFailure_ne_auth jobId statusText status b h404⟩

/-- Witness for the amended C8 at a 401 response. -/
theorem getJobStatus_classification_witness :
    getJobStatusFailure "job_9" 401 "Unauthorized" bodyAuthJson =
      ⟨"Failed to get job status (" ++ toString 401 ++ "): " ++
        (if bodyAuthJson.text = "" then "Unauthorized" else bodyAuthJson.text)⟩ ∧
    getJobStatusFailure "job_9" 404 "Unauthorized" bodyAuthJson =
      ⟨"Job " ++ "job_9" ++ " not found"⟩ ∧
    (∀ j : JsonErrorBody,
      getJobStatusFailure "job_9" 401 "Unauthorized" ⟨bodyAuthJson.text, some j⟩ =
        getJobStatusFailure "job_9" 401 "Unauthorized" ⟨bodyAuthJson.text, none⟩) ∧
    getJobStatusFailure "job_9" 401 "Unauthorized" bodyAuthJson ≠
      ⟨authErrorMessage⟩ :=
  getJobStatus_classification "job_9" "Unauthorized" 401 bodyAuthJson
    (by decide)

/-- The submission response as `createJob` observes it: HTTP status, status
text, error body (for the non-success path) and the `jobId` field of the
success JSON (`none` when absent or falsy). -/
structure SubmitResponse where
  status : Nat
  statusText : String
  body : ResponseBody
  jobId : Option String
  deriving Repr

/-- `Response.ok` of the fetch API: status in the 200-299 range. -/
def respOk (status : Nat) : Bool :=
  200 ≤ status && status < 300

/-- `createJob` (lines 106-169) over the submission response: on success a
job id (or the malformed-response failure when the field is missing), on
non-success the classified failure. -/
def createJob (resp : SubmitResponse) : Except Err String :=
  if respOk resp.status then
    match resp.jobId with
    | some id => .ok id
    | none => .error ⟨"API did not return a job ID"⟩
  else .error (createJobFailure resp.status resp.body)

/-- Observable outcome of one `runQATest` run (lines 285-331): the result,
how many times the submission was invoked, and whether the poll loop was
entered. -/
structure RunOutcome where
  result : Except Err (Option (WaitResult × Nat))
  submitCalls : Nat
  polled : Bool
  deriving Repr

/-- `runQATest` (lines 285-297): submit through `withRetry`, then — only on
success — poll through `waitForCompletion`. -/
def runQATest (resp : SubmitResponse) (snaps : List Snapshot)
    (targetMinutes : Option Int) : RunOutcome :=
  match withRetry (fun _ => createJob resp) with
  | (.error e, n, _) => ⟨.error e, n, false⟩
  | (.ok _, n, _) => ⟨.ok (waitForCompletion snaps targetMinutes), n, true⟩

/-- The 401 authentication message is not network-class, so it is not
retried. -/
theorem authError_not_network : isNetworkError ⟨authErrorMessage⟩ = false := by
  decide

/-- C9.  A 401 submission response makes the whole run fail with the
authentication failure: the submission is invoked exactly once (no retry)
and the poll loop is never entered. -/
theorem runQATest_auth_fail (resp : SubmitResponse) (snaps : List Snapshot)
    (tgt : Option Int) (h401 : resp.status = 401) :
    runQATest resp snaps tgt = ⟨.error ⟨authErrorMessage⟩, 1, false⟩ := by
  have hcj : createJob resp = .error ⟨authErrorMessage⟩ := by
    simp [createJob, h401, respOk, createJobFailure]
  have hretry : withRetry (fun _ => createJob resp) =
      (.error ⟨authErrorMessage⟩, 1, []) := by
    unfold withRetry
    exact retryGo_of_error_stop _ 1000 0 3 _ hcj authError_not_network
  simp [runQATest, hretry]

/-- A 401 submission response. -/
def resp401 : SubmitResponse := ⟨401, "Unauthorized", ⟨"", none⟩, none⟩

/-- Witness for C9. -/
theorem runQATest_auth_fail_witness :
    runQATest resp401 [pendingSnap] (some 5) =
      ⟨.error ⟨authErrorMessage⟩, 1, false⟩ :=
  runQATest_auth_fail resp401 [pendingSnap] (some 5) rfl

end RunHuman
